import Mathlib

/-!
Shallow embedding of the SafeWalk backend scoring pipeline
(`backend/app.py`): grid quantization, cell-feature lookup, route
down-sampling and the point / route scoring handlers. Python floats are
modelled by exact rationals, `round` by round-half-to-even, and the
fitted regression model by an arbitrary function from feature vectors
to rationals.
-/

namespace SafeWalk

/-- Python `round(q)`: nearest integer, ties to even (banker's rounding). -/
def pyround (q : ℚ) : ℤ :=
  if q - ⌊q⌋ < 1/2 then ⌊q⌋
  else if 1/2 < q - ⌊q⌋ then ⌊q⌋ + 1
  else if 2 ∣ ⌊q⌋ then ⌊q⌋ else ⌊q⌋ + 1

/-- Python `round(q, 2)`: round to 2 decimal places. -/
def round2 (q : ℚ) : ℚ :=
  (pyround (q * 100) : ℚ) / 100

/-- `np.clip(q, 1, 10)`. -/
def clip (q : ℚ) : ℚ :=
  min (max q 1) 10

/-- `GRID_STEP = 0.0015` from `app.py`. -/
def GRID_STEP : ℚ := 0.0015

/-- `make_cell(lat, lng)` from `app.py`: round each component to the
nearest multiple of `GRID_STEP`. -/
def make_cell (lat lng : ℚ) : ℚ × ℚ :=
  ((pyround (lat / GRID_STEP) : ℚ) * GRID_STEP,
   (pyround (lng / GRID_STEP) : ℚ) * GRID_STEP)

/-- One row of the loaded `grid_features.csv` table (`grid_df`). -/
structure GridRow where
  cell_lat : ℚ
  cell_lon : ℚ
  incident_count : ℚ
  camera_count : ℚ
  police_count : ℚ
deriving DecidableEq

/-- The in-memory grid table: `None` when `grid_features.csv` was absent. -/
abbrev Grid := List GridRow

/-- `get_cell_features(lat, lon)` from `app.py`: quantize to a cell, filter
the table on both cell columns, take the first matching row; the zero
vector when the table is absent or the cell has no row. -/
def get_cell_features (grid : Option Grid) (lat lon : ℚ) : List ℚ :=
  match grid with
  | none => [0, 0, 0]
  | some g =>
    let cell := make_cell lat lon
    let row := g.filter (fun r =>
      decide (r.cell_lat = cell.1) && decide (r.cell_lon = cell.2))
    match row with
    | [] => [0, 0, 0]
    | r :: _ => [r.incident_count, r.camera_count, r.police_count]

/-- Python slice `xs[::k]` for `k ≥ 1`: the elements at indices
`0, k, 2k, ...` in order. -/
def takeEvery (k : Nat) : List α → List α
  | [] => []
  | x :: xs => x :: takeEvery k (xs.drop (k - 1))
termination_by xs => xs.length
decreasing_by
  simp only [List.length_drop, List.length_cons]
  omega

/-- The down-sampling step of `score_route` (`app.py` lines 266-268):
`if len(coords) > 1000: step = len(coords) // 1000; coords = coords[::step]`. -/
def sampleRoute (coords : List α) : List α :=
  if 1000 < coords.length then takeEvery (coords.length / 1000) coords
  else coords

/-- The fitted regression model: an opaque map from a 3-feature vector to a
raw score (`safety_model.predict` on one row). -/
abbrev Model := List ℚ → ℚ

/-- The `coords` field of a `/api/score-route` request body, as the handler
can observe it: absent (or JSON null), a falsy non-list value (rejected by
`if not coords`), a truthy non-list value (rejected by the `isinstance`
check), or a JSON array whose entries are arrays of numbers. -/
inductive CoordsVal where
  | missing : CoordsVal
  | nonListFalsy : CoordsVal
  | nonListTruthy : CoordsVal
  | arr : List (List ℚ) → CoordsVal

/-- Outcome of the `/api/score-route` handler: a 200 payload
`(score, segments)` or an error with its HTTP status and message. -/
inductive RouteResult where
  | ok : ℚ → List ℚ → RouteResult
  | err : Nat → String → RouteResult
deriving DecidableEq

/-- HTTP status of a `RouteResult`. -/
def respStatus : RouteResult → Nat
  | .ok _ _ => 200
  | .err s _ => s

/-- `score_route` from `app.py` (lines 247-289): availability checks, coords
validation, down-sampling, per-point feature lookup, prediction, clipping,
mean, and response shaping. An entry with fewer than two components makes
`p[1]` raise inside the `try`, which the handler turns into a 500. -/
def score_route (model : Option Model) (grid : Option Grid)
    (coords : CoordsVal) : RouteResult :=
  match model with
  | none => .err 500 "Safety model not loaded. Check backend logs."
  | some m =>
    match grid with
    | none => .err 500 "Grid features not loaded. Run generate_grid_features.py first."
    | some g =>
      match coords with
      | .missing => .err 400 "coords required"
      | .nonListFalsy => .err 400 "coords required"
      | .nonListTruthy => .err 400 "coords must be a non-empty array"
      | .arr [] => .err 400 "coords required"
      | .arr (e :: es) =>
        let sampled := sampleRoute (e :: es)
        if sampled.all (fun p => decide (2 ≤ p.length)) then
          let X := sampled.map (fun p =>
            get_cell_features (some g) (p.getD 0 0) (p.getD 1 0))
          if X.length = 0 then .err 400 "No valid coordinates to score"
          else
            let preds := X.map m
            let preds_clipped := preds.map clip
            let avg := preds_clipped.sum / (preds_clipped.length : ℚ)
            .ok (round2 avg) ((preds_clipped.take 100).map round2)
        else .err 500 "Failed to calculate safety score"

/-- Body of a `/api/safety-score` request: the `lat` and `lng` fields,
each possibly absent. -/
structure PointReq where
  lat : Option ℚ
  lng : Option ℚ

/-- Outcome of the `/api/safety-score` handler. -/
inductive PointResult where
  | ok : ℚ → PointResult
  | err : Nat → String → PointResult
deriving DecidableEq

/-- The scoring core of `safety_score_point` (`app.py` lines 197-200):
predict on the cell features, clip to `[1, 10]`, round to 2 decimals. -/
def scorePoint (m : Model) (grid : Option Grid) (lat lng : ℚ) : ℚ :=
  round2 (clip (m (get_cell_features grid lat lng)))

/-- `safety_score_point` from `app.py` (lines 184-202): the availability
check precedes the `lat`/`lng` validation. -/
def safety_score_point (model : Option Model) (grid : Option Grid)
    (req : PointReq) : PointResult :=
  match model, grid with
  | some m, some g =>
    match req.lat, req.lng with
    | some lat, some lng => .ok (scorePoint m (some g) lat lng)
    | _, _ => .err 400 "lat & lng required"
  | _, _ => .err 500 "Safety model not loaded"

/-- The module-level mutable state of `app.py`: the `safety_model` and
`grid_df` globals. -/
structure ServerState where
  safety_model : Option Model
  grid_df : Option Grid

/-- The `/api/safety-score` handler as a state transformer: it reads the
globals but contains no assignment to them, so the state it returns is the
state it was given. -/
def safety_score_point_app (st : ServerState) (req : PointReq) :
    PointResult × ServerState :=
  (safety_score_point st.safety_model st.grid_df req, st)

/-- The `/api/score-route` handler as a state transformer: it reads the
globals but contains no assignment to them. -/
def score_route_app (st : ServerState) (coords : CoordsVal) :
    RouteResult × ServerState :=
  (score_route st.safety_model st.grid_df coords, st)

/-- The clipped per-segment scores of a route request, written as one map
over the sampled coordinates: feature lookup, prediction, then clipping. -/
def clippedSegScores (m : Model) (g : Grid) (entries : List (List ℚ)) :
    List ℚ :=
  (sampleRoute entries).map (fun p =>
    clip (m (get_cell_features (some g) (p.getD 0 0) (p.getD 1 0))))

/-! ### Numeric lemmas -/

lemma pyround_intCast (n : ℤ) : pyround (n : ℚ) = n := by
  simp [pyround]

lemma le_pyround (a : ℤ) (q : ℚ) (h : (a : ℚ) ≤ q) : a ≤ pyround q := by
  have hf : a ≤ ⌊q⌋ := Int.le_floor.mpr h
  unfold pyround
  split_ifs <;> omega

lemma pyround_le (b : ℤ) (q : ℚ) (h : q ≤ (b : ℚ)) : pyround q ≤ b := by
  have hfb : ⌊q⌋ ≤ b := by
    have := Int.floor_le_floor h
    simpa using this
  have hfloor : (⌊q⌋ : ℚ) ≤ q := Int.floor_le q
  unfold pyround
  split_ifs with h1 h2 h3
  · exact hfb
  · -- here 1/2 < q - ⌊q⌋, so ⌊q⌋ < q ≤ b
    have hlt : (⌊q⌋ : ℚ) < (b : ℚ) := by linarith
    have : ⌊q⌋ < b := by exact_mod_cast hlt
    omega
  · exact hfb
  · -- here q - ⌊q⌋ = 1/2, so ⌊q⌋ < q ≤ b
    have hq : (⌊q⌋ : ℚ) < q := by
      have : q - ⌊q⌋ = 1/2 := le_antisymm (not_lt.mp h2) (not_lt.mp h1)
      linarith
    have hlt : (⌊q⌋ : ℚ) < (b : ℚ) := lt_of_lt_of_le hq h
    have : ⌊q⌋ < b := by exact_mod_cast hlt
    omega

lemma pyround_eq_down (q : ℚ) (n : ℤ) (h1 : ⌊q⌋ = n) (h2 : q - n < 1/2) :
    pyround q = n := by
  rw [pyround, h1, if_pos h2]

lemma pyround_eq_up (q : ℚ) (n : ℤ) (h1 : ⌊q⌋ = n) (h2 : 1/2 < q - n) :
    pyround q = n + 1 := by
  rw [pyround, h1, if_neg (by linarith), if_pos h2]

lemma pyround_zero_div : pyround ((0 : ℚ) / GRID_STEP) = 0 := by
  rw [show ((0 : ℚ) / GRID_STEP) = 0 by norm_num]
  exact pyround_eq_down 0 0 (by norm_num) (by norm_num)

lemma make_cell_zero_zero : make_cell 0 0 = (0, 0) := by
  rw [make_cell, pyround_zero_div]
  norm_num

lemma make_cell_small : make_cell (1/10000) 0 = (0, 0) := by
  have h1 : pyround ((1/10000 : ℚ) / GRID_STEP) = 0 := by
    rw [show ((1/10000 : ℚ) / GRID_STEP) = 1/15 by norm_num [GRID_STEP]]
    exact pyround_eq_down (1/15) 0 (by norm_num) (by norm_num)
  rw [make_cell, h1, pyround_zero_div]
  norm_num

lemma make_cell_one_one : make_cell 1 1 = (2001/2000, 2001/2000) := by
  have h : pyround ((1 : ℚ) / GRID_STEP) = 667 := by
    rw [show ((1 : ℚ) / GRID_STEP) = 2000/3 by norm_num [GRID_STEP]]
    have h2 := pyround_eq_up (2000/3) 666 (by norm_num) (by norm_num)
    omega
  rw [make_cell, h]
  simp only [Prod.mk.injEq]
  constructor <;> norm_num [GRID_STEP]

lemma clip_bounds (q : ℚ) : 1 ≤ clip q ∧ clip q ≤ 10 := by
  constructor
  · exact le_min (le_max_right q 1) (by norm_num)
  · exact min_le_right _ _

lemma round2_bounds (q : ℚ) (h1 : 1 ≤ q) (h10 : q ≤ 10) :
    1 ≤ round2 q ∧ round2 q ≤ 10 := by
  have hlo : (100 : ℤ) ≤ pyround (q * 100) := by
    apply le_pyround
    push_cast
    linarith
  have hhi : pyround (q * 100) ≤ (1000 : ℤ) := by
    apply pyround_le
    push_cast
    linarith
  constructor
  · have : (100 : ℚ) ≤ (pyround (q * 100) : ℚ) := by exact_mod_cast hlo
    rw [round2]
    linarith
  · have : ((pyround (q * 100) : ℚ)) ≤ 1000 := by exact_mod_cast hhi
    rw [round2]
    linarith

lemma scorePoint_bounds (m : Model) (grid : Option Grid) (lat lng : ℚ) :
    1 ≤ scorePoint m grid lat lng ∧ scorePoint m grid lat lng ≤ 10 := by
  have h := clip_bounds (m (get_cell_features grid lat lng))
  exact round2_bounds _ h.1 h.2

/-! ### Down-sampling lemmas -/

lemma takeEvery_nil (k : Nat) : takeEvery k ([] : List α) = [] := by
  rw [takeEvery]

lemma takeEvery_cons (k : Nat) (x : α) (xs : List α) :
    takeEvery k (x :: xs) = x :: takeEvery k (xs.drop (k - 1)) := by
  rw [takeEvery]

lemma takeEvery_one (xs : List α) : takeEvery 1 xs = xs := by
  induction xs with
  | nil => exact takeEvery_nil 1
  | cons x xs ih => rw [takeEvery_cons]; simpa using ih

lemma takeEvery_length_le (k : Nat) (hk : 0 < k) :
    ∀ n (xs : List α), xs.length ≤ n →
      (takeEvery k xs).length = (xs.length + k - 1) / k := by
  intro n
  induction n with
  | zero =>
    intro xs h
    have hx : xs = [] := List.length_eq_zero.mp (Nat.le_zero.mp h)
    subst hx
    rw [takeEvery_nil]
    simp [Nat.div_eq_of_lt (by omega : k - 1 < k)]
  | succ n ih =>
    intro xs h
    cases xs with
    | nil =>
      rw [takeEvery_nil]
      simp [Nat.div_eq_of_lt (by omega : k - 1 < k)]
    | cons x xs =>
      rw [takeEvery_cons]
      have hdrop : (xs.drop (k - 1)).length ≤ n := by
        simp only [List.length_drop]
        simp only [List.length_cons] at h
        omega
      rw [List.length_cons, ih _ hdrop, List.length_drop, List.length_cons]
      rcases le_or_lt (k - 1) xs.length with h1 | h1
      · have e1 : xs.length - (k - 1) + k - 1 = xs.length := by omega
        have e2 : xs.length + 1 + k - 1 = xs.length + k := by omega
        rw [e1, e2, Nat.add_div_right _ hk]
      · have e1 : xs.length - (k - 1) + k - 1 = k - 1 := by omega
        have e2 : xs.length + 1 + k - 1 = xs.length + k := by omega
        rw [e1, e2, Nat.div_eq_of_lt (by omega : k - 1 < k),
          Nat.add_div_right _ hk, Nat.div_eq_of_lt (by omega : xs.length < k)]

lemma takeEvery_length (k : Nat) (hk : 0 < k) (xs : List α) :
    (takeEvery k xs).length = (xs.length + k - 1) / k :=
  takeEvery_length_le k hk xs.length xs le_rfl

lemma takeEvery_sublist_le (k : Nat) :
    ∀ n (xs : List α), xs.length ≤ n → (takeEvery k xs).Sublist xs := by
  intro n
  induction n with
  | zero =>
    intro xs h
    have hx : xs = [] := List.length_eq_zero.mp (Nat.le_zero.mp h)
    subst hx
    rw [takeEvery_nil]
  | succ n ih =>
    intro xs h
    cases xs with
    | nil => rw [takeEvery_nil]
    | cons x xs =>
      rw [takeEvery_cons]
      have hdrop : (xs.drop (k - 1)).length ≤ n := by
        simp only [List.length_drop]
        simp only [List.length_cons] at h
        omega
      exact (ih _ hdrop).trans (List.drop_sublist (k - 1) xs) |>.cons₂ x

lemma takeEvery_sublist (k : Nat) (xs : List α) :
    (takeEvery k xs).Sublist xs :=
  takeEvery_sublist_le k xs.length xs le_rfl

lemma takeEvery_head (k : Nat) (xs : List α) :
    (takeEvery k xs).head? = xs.head? := by
  cases xs with
  | nil => rw [takeEvery_nil]
  | cons x xs => rw [takeEvery_cons]; rfl

lemma sampleRoute_short (coords : List α) (h : coords.length ≤ 1000) :
    sampleRoute coords = coords := by
  rw [sampleRoute, if_neg (by omega)]

lemma sampleRoute_long (coords : List α) (h : 1000 < coords.length) :
    sampleRoute coords = takeEvery (coords.length / 1000) coords := by
  rw [sampleRoute, if_pos h]

lemma sampleRoute_long_length (coords : List α) (h : 1000 < coords.length) :
    (sampleRoute coords).length ≤ 1999 := by
  set n := coords.length with hn
  have hk : 0 < n / 1000 := by omega
  rw [sampleRoute_long coords h,
    takeEvery_length _ hk, ← hn]
  have hbound : n + n / 1000 - 1 ≤ 1999 * (n / 1000) := by omega
  calc (n + n / 1000 - 1) / (n / 1000)
      ≤ 1999 * (n / 1000) / (n / 1000) := Nat.div_le_div_right hbound
    _ = 1999 := Nat.mul_div_cancel 1999 hk

lemma sampleRoute_head (coords : List α) :
    (sampleRoute coords).head? = coords.head? := by
  rw [sampleRoute]
  split
  · exact takeEvery_head _ _
  · rfl

lemma sampleRoute_sublist (coords : List α) :
    (sampleRoute coords).Sublist coords := by
  rw [sampleRoute]
  split
  · exact takeEvery_sublist _ _
  · exact List.Sublist.refl coords

lemma sampleRoute_ne_nil (coords : List α) (h : coords ≠ []) :
    sampleRoute coords ≠ [] := by
  rw [sampleRoute]
  split
  · cases coords with
    | nil => exact absurd rfl h
    | cons x xs => rw [takeEvery_cons]; exact List.cons_ne_nil _ _
  · exact h

/-! ### Route-scoring success path -/

/-- A demonstration grid table with one row at cell `(0, 0)`. -/
def demoGrid : Grid := [⟨0, 0, 2, 5, 1⟩]

lemma score_route_success (m : Model) (g : Grid) (entries : List (List ℚ))
    (hne : entries ≠ [])
    (hwf : ∀ p ∈ sampleRoute entries, 2 ≤ p.length) :
    score_route (some m) (some g) (.arr entries) =
      .ok (round2 ((clippedSegScores m g entries).sum /
            ((clippedSegScores m g entries).length : ℚ)))
        (((clippedSegScores m g entries).take 100).map round2) := by
  cases entries with
  | nil => exact absurd rfl hne
  | cons e es =>
    have hall : (sampleRoute (e :: es)).all (fun p => decide (2 ≤ p.length)) = true := by
      rw [List.all_eq_true]
      intro p hp
      exact decide_eq_true (hwf p hp)
    have hlen : ¬ ((sampleRoute (e :: es)).map (fun p =>
        get_cell_features (some g) (p.getD 0 0) (p.getD 1 0))).length = 0 := by
      rw [List.length_map, List.length_eq_zero]
      exact sampleRoute_ne_nil _ (List.cons_ne_nil e es)
    simp only [score_route, hall, if_true, if_neg hlen, clippedSegScores,
      List.map_map]
    rfl

/-! ### Claim theorems -/

/-- Claim C2: in route scoring, every per-segment model prediction is
clipped to `[1, 10]` before averaging, and the returned route score is the
arithmetic mean of the clipped per-segment scores rounded to 2 decimals,
for every non-empty, well-formed scored coordinate sequence. -/
theorem claim_C2_clip_before_mean (m : Model) (g : Grid)
    (entries : List (List ℚ)) (hne : entries ≠ [])
    (hwf : ∀ p ∈ sampleRoute entries, 2 ≤ p.length) :
    score_route (some m) (some g) (.arr entries) =
      .ok (round2 ((clippedSegScores m g entries).sum /
            ((clippedSegScores m g entries).length : ℚ)))
        (((clippedSegScores m g entries).take 100).map round2) ∧
    ∀ x ∈ clippedSegScores m g entries, 1 ≤ x ∧ x ≤ 10 := by
  refine ⟨score_route_success m g entries hne hwf, ?_⟩
  intro x hx
  rw [clippedSegScores] at hx
  obtain ⟨p, _, rfl⟩ := List.mem_map.mp hx
  exact clip_bounds _

/-- Witness for C2 at the one-point route `[[0, 0]]`. -/
theorem claim_C2_witness :
    (([[(0 : ℚ), 0]] : List (List ℚ)) ≠ []) ∧
    (∀ p ∈ sampleRoute ([[(0 : ℚ), 0]] : List (List ℚ)), 2 ≤ p.length) ∧
    (score_route (some fun f => f.sum) (some demoGrid) (.arr [[(0 : ℚ), 0]]) =
      .ok (round2 ((clippedSegScores (fun f => f.sum) demoGrid [[(0 : ℚ), 0]]).sum /
            ((clippedSegScores (fun f => f.sum) demoGrid [[(0 : ℚ), 0]]).length : ℚ)))
        (((clippedSegScores (fun f => f.sum) demoGrid [[(0 : ℚ), 0]]).take 100).map round2) ∧
      ∀ x ∈ clippedSegScores (fun f => f.sum) demoGrid [[(0 : ℚ), 0]],
        1 ≤ x ∧ x ≤ 10) := by
  have h1 : (([[(0 : ℚ), 0]] : List (List ℚ)) ≠ []) := by simp
  have h2 : ∀ p ∈ sampleRoute ([[(0 : ℚ), 0]] : List (List ℚ)), 2 ≤ p.length := by
    decide
  exact ⟨h1, h2, claim_C2_clip_before_mean (fun f => f.sum) demoGrid _ h1 h2⟩

/-- Claim C3: the point safety score (model prediction clipped to `[1, 10]`
and rounded to 2 decimals) always lies in `[1, 10]`, for every model and
every coordinate, and it is exactly what the handler returns. -/
theorem claim_C3_point_score_in_range (m : Model) (g : Grid) (lat lng : ℚ) :
    safety_score_point (some m) (some g) ⟨some lat, some lng⟩ =
      .ok (scorePoint m (some g) lat lng) ∧
    1 ≤ scorePoint m (some g) lat lng ∧ scorePoint m (some g) lat lng ≤ 10 :=
  ⟨rfl, scorePoint_bounds m (some g) lat lng⟩

/-- Claim C5: the feature lookup never fails — it returns the zero vector
when the table is absent, and the zero vector when the quantized cell has
no matching row. -/
theorem claim_C5_zero_vector_fallback :
    (∀ lat lng : ℚ, get_cell_features none lat lng = [0, 0, 0]) ∧
    (∀ (g : Grid) (lat lng : ℚ),
      (∀ r ∈ g, ¬(r.cell_lat = (make_cell lat lng).1 ∧
                  r.cell_lon = (make_cell lat lng).2)) →
      get_cell_features (some g) lat lng = [0, 0, 0]) := by
  constructor
  · intro lat lng
    rfl
  · intro g lat lng h
    have hfil : g.filter (fun r =>
        decide (r.cell_lat = (make_cell lat lng).1) &&
        decide (r.cell_lon = (make_cell lat lng).2)) = [] := by
      rw [List.filter_eq_nil_iff]
      intro r hr
      simp only [Bool.and_eq_true, decide_eq_true_eq, not_and]
      intro hc1 hc2
      exact h r hr ⟨hc1, hc2⟩
    simp only [get_cell_features, hfil]

/-- Witness for C5: absent table at `(0, 0)`, and a miss of `demoGrid`
at `(1, 1)`. -/
theorem claim_C5_witness :
    get_cell_features none 0 0 = [0, 0, 0] ∧
    (∀ r ∈ demoGrid, ¬(r.cell_lat = (make_cell 1 1).1 ∧
                       r.cell_lon = (make_cell 1 1).2)) ∧
    get_cell_features (some demoGrid) 1 1 = [0, 0, 0] := by
  have h : ∀ r ∈ demoGrid, ¬(r.cell_lat = (make_cell 1 1).1 ∧
      r.cell_lon = (make_cell 1 1).2) := by
    intro r hr
    simp only [demoGrid, List.mem_singleton] at hr
    subst hr
    rw [make_cell_one_one]
    simp only [not_and]
    intro h1
    norm_num at h1
  exact ⟨claim_C5_zero_vector_fallback.1 0 0, h,
    claim_C5_zero_vector_fallback.2 demoGrid 1 1 h⟩

/-- Claim C6: with a fixed loaded table, two coordinates quantizing to the
same cell receive the same features. -/
theorem claim_C6_cell_determines_features (grid : Option Grid)
    (lat1 lng1 lat2 lng2 : ℚ)
    (h : make_cell lat1 lng1 = make_cell lat2 lng2) :
    get_cell_features grid lat1 lng1 = get_cell_features grid lat2 lng2 := by
  cases grid with
  | none => rfl
  | some g => simp only [get_cell_features, h]

/-- Witness for C6: `(0.0001, 0)` and `(0, 0)` share the cell `(0, 0)`. -/
theorem claim_C6_witness :
    make_cell (1/10000) 0 = make_cell 0 0 ∧
    get_cell_features (some demoGrid) (1/10000) 0 =
      get_cell_features (some demoGrid) 0 0 :=
  ⟨by rw [make_cell_small, make_cell_zero_zero],
   claim_C6_cell_determines_features (some demoGrid) _ _ _ _
     (by rw [make_cell_small, make_cell_zero_zero])⟩

lemma quantize_idem (x : ℚ) :
    (pyround (((pyround (x / GRID_STEP) : ℚ) * GRID_STEP) / GRID_STEP) : ℚ) *
      GRID_STEP = (pyround (x / GRID_STEP) : ℚ) * GRID_STEP := by
  have hs : GRID_STEP ≠ 0 := by norm_num [GRID_STEP]
  rw [mul_div_cancel_right₀ _ hs, pyround_intCast]

/-- Claim C7: `make_cell` is idempotent — re-quantizing the cell it
produces yields the same cell. -/
theorem claim_C7_make_cell_idempotent (lat lng : ℚ) :
    make_cell (make_cell lat lng).1 (make_cell lat lng).2 =
      make_cell lat lng := by
  simp only [make_cell]
  exact Prod.ext (quantize_idem lat) (quantize_idem lng)

/-- Claim C1 (amended): the down-sampling step leaves a short route
(length ≤ 1000) unchanged and, for a long route, keeps every k-th
coordinate with `k = len / 1000`, preserving order (a sublist) and the
first coordinate; the result's length is bounded by 1999, not by 1000. -/
theorem claim_C1_sampling_amended (coords : List (ℚ × ℚ)) :
    (coords.length ≤ 1000 → sampleRoute coords = coords) ∧
    (1000 < coords.length →
      sampleRoute coords = takeEvery (coords.length / 1000) coords ∧
      (sampleRoute coords).length ≤ 1999 ∧
      (sampleRoute coords).Sublist coords ∧
      (sampleRoute coords).head? = coords.head?) :=
  ⟨sampleRoute_short coords,
   fun h => ⟨sampleRoute_long coords h, sampleRoute_long_length coords h,
     sampleRoute_sublist coords, sampleRoute_head coords⟩⟩

/-- Counterexample to C1 as stated: a route of 1500 coordinates has
stride `1500 / 1000 = 1`, so down-sampling returns all 1500 coordinates,
exceeding the claimed cap of 1000. -/
theorem claim_C1_counterexample :
    ¬ (sampleRoute (List.replicate 1500 ((0 : ℚ), (0 : ℚ)))).length ≤ 1000 := by
  have h1500 : (List.replicate 1500 ((0 : ℚ), (0 : ℚ))).length = 1500 :=
    List.length_replicate 1500 _
  rw [sampleRoute, h1500, if_pos (by norm_num : 1000 < 1500),
    show (1500 / 1000 : Nat) = 1 from rfl, takeEvery_one, h1500]
  norm_num

/-- Witness for C1 at a one-point route and a 1001-point route. -/
theorem claim_C1_witness :
    sampleRoute [((0 : ℚ), (0 : ℚ))] = [((0 : ℚ), (0 : ℚ))] ∧
    (sampleRoute (List.replicate 1001 ((0 : ℚ), (0 : ℚ))) =
      takeEvery ((List.replicate 1001 ((0 : ℚ), (0 : ℚ))).length / 1000)
        (List.replicate 1001 ((0 : ℚ), (0 : ℚ))) ∧
     (sampleRoute (List.replicate 1001 ((0 : ℚ), (0 : ℚ)))).length ≤ 1999 ∧
     (sampleRoute (List.replicate 1001 ((0 : ℚ), (0 : ℚ)))).Sublist
       (List.replicate 1001 ((0 : ℚ), (0 : ℚ))) ∧
     (sampleRoute (List.replicate 1001 ((0 : ℚ), (0 : ℚ)))).head? =
       (List.replicate 1001 ((0 : ℚ), (0 : ℚ))).head?) :=
  ⟨(claim_C1_sampling_amended _).1 (by simp),
   (claim_C1_sampling_amended _).2 (by rw [List.length_replicate]; norm_num)⟩

/-- Claim C4 (amended): missing, empty, or non-list `coords` are rejected
with a 400 before any scoring; but entries that are not `[lat, lng]` pairs
are not rejected up front — a sampled entry with fewer than two components
makes scoring fail with a 500-equivalent internal error. -/
theorem claim_C4_validation_amended (m : Model) (g : Grid) :
    score_route (some m) (some g) .missing = .err 400 "coords required" ∧
    score_route (some m) (some g) .nonListFalsy = .err 400 "coords required" ∧
    score_route (some m) (some g) .nonListTruthy =
      .err 400 "coords must be a non-empty array" ∧
    score_route (some m) (some g) (.arr []) = .err 400 "coords required" ∧
    ∀ entries : List (List ℚ),
      (∃ p ∈ sampleRoute entries, p.length < 2) →
      score_route (some m) (some g) (.arr entries) =
        .err 500 "Failed to calculate safety score" := by
  refine ⟨rfl, rfl, rfl, rfl, ?_⟩
  rintro entries ⟨p, hp, hlen⟩
  cases entries with
  | nil =>
    rw [sampleRoute_short [] (by simp)] at hp
    exact absurd hp (List.not_mem_nil p)
  | cons e es =>
    have hall : ¬ ((sampleRoute (e :: es)).all
        (fun p => decide (2 ≤ p.length)) = true) := by
      rw [List.all_eq_true]
      intro hforall
      have := of_decide_eq_true (hforall p hp)
      omega
    simp only [score_route, if_neg hall]

/-- Counterexample to C4 as stated: with model and table loaded, the
malformed route `[[0]]` (its entry is not a `[lat, lng]` pair) yields a
500-equivalent internal error, not the claimed 400. -/
theorem claim_C4_counterexample :
    respStatus (score_route (some fun f => f.sum) (some demoGrid)
      (.arr [[(0 : ℚ)]])) = 500 ∧
    respStatus (score_route (some fun f => f.sum) (some demoGrid)
      (.arr [[(0 : ℚ)]])) ≠ 400 := by
  constructor <;> decide

/-- Witness for C4 at the malformed route `[[0]]`. -/
theorem claim_C4_witness :
    (∃ p ∈ sampleRoute ([[(0 : ℚ)]] : List (List ℚ)), p.length < 2) ∧
    score_route (some fun f => f.sum) (some demoGrid) (.arr [[(0 : ℚ)]]) =
      .err 500 "Failed to calculate safety score" := by
  have h : ∃ p ∈ sampleRoute ([[(0 : ℚ)]] : List (List ℚ)), p.length < 2 := by
    refine ⟨[0], ?_, by simp⟩
    rw [sampleRoute_short _ (by simp)]
    simp
  exact ⟨h, (claim_C4_validation_amended (fun f => f.sum) demoGrid).2.2.2.2 _ h⟩

lemma sampleRoute_replicate_1200 (a : α) :
    sampleRoute (List.replicate 1200 a) = List.replicate 1200 a := by
  rw [sampleRoute, List.length_replicate, if_pos (by norm_num),
    show (1200 / 1000 : Nat) = 1 from rfl, takeEvery_one]

/-- Claim C8 (amended): a route of 1200 identical coordinates returns a
mean score equal to the point score of that coordinate, and the returned
per-segment list has length 100 ≤ 100 — but all 1200 points are scored,
because the stride `1200 / 1000 = 1` leaves the route unchanged. -/
theorem claim_C8_identical_route (m : Model) (g : Grid) (lat lng : ℚ)
    (_hcell : ∃ r ∈ g, r.cell_lat = (make_cell lat lng).1 ∧
        r.cell_lon = (make_cell lat lng).2) :
    score_route (some m) (some g) (.arr (List.replicate 1200 [lat, lng])) =
      .ok (scorePoint m (some g) lat lng)
        (List.replicate 100
          (round2 (clip (m (get_cell_features (some g) lat lng))))) ∧
    (List.replicate 100
      (round2 (clip (m (get_cell_features (some g) lat lng))))).length ≤ 100 ∧
    (sampleRoute (List.replicate 1200 ([lat, lng] : List ℚ))).length = 1200 := by
  have hsample := sampleRoute_replicate_1200 ([lat, lng] : List ℚ)
  have hne : (List.replicate 1200 ([lat, lng] : List ℚ)) ≠ [] := by
    intro h
    have := congrArg List.length h
    rw [List.length_replicate] at this
    simp at this
  have hwf : ∀ p ∈ sampleRoute (List.replicate 1200 ([lat, lng] : List ℚ)),
      2 ≤ p.length := by
    rw [hsample]
    intro p hp
    rw [List.eq_of_mem_replicate hp]
    simp
  have hseg : clippedSegScores m g (List.replicate 1200 [lat, lng]) =
      List.replicate 1200 (clip (m (get_cell_features (some g) lat lng))) := by
    rw [clippedSegScores, hsample, List.map_replicate]
    simp only [List.getD_cons_zero, List.getD_cons_succ]
  refine ⟨?_, ?_, ?_⟩
  case refine_2 => rw [List.length_replicate]
  case refine_3 => rw [hsample, List.length_replicate]
  rw [score_route_success m g _ hne hwf, hseg, RouteResult.ok.injEq]
  constructor
  · rw [List.sum_replicate, List.length_replicate, nsmul_eq_mul, scorePoint,
      mul_div_cancel_left₀ _ (by norm_num : ((1200 : ℕ) : ℚ) ≠ 0)]
  · rw [List.take_replicate, List.map_replicate]
    norm_num

/-- Counterexample to C8 as stated: with 1200 identical coordinates the
stride is `1200 / 1000 = 1`, so 1200 points — not at most 1000 — survive
down-sampling and are scored. -/
theorem claim_C8_counterexample :
    ¬ (sampleRoute (List.replicate 1200 ([(0 : ℚ), 0] : List ℚ))).length ≤ 1000 := by
  rw [sampleRoute_replicate_1200, List.length_replicate]
  norm_num

/-- Witness for C8 at the cell `(0, 0)` of `demoGrid`. -/
theorem claim_C8_witness :
    (∃ r ∈ demoGrid, r.cell_lat = (make_cell 0 0).1 ∧
        r.cell_lon = (make_cell 0 0).2) ∧
    (score_route (some fun f => f.sum) (some demoGrid)
        (.arr (List.replicate 1200 [0, 0])) =
      .ok (scorePoint (fun f => f.sum) (some demoGrid) 0 0)
        (List.replicate 100
          (round2 (clip (List.sum (get_cell_features (some demoGrid) 0 0))))) ∧
    (List.replicate 100
      (round2 (clip (List.sum (get_cell_features (some demoGrid) 0 0))))).length ≤ 100 ∧
    (sampleRoute (List.replicate 1200 ([0, 0] : List ℚ))).length = 1200) := by
  have h : ∃ r ∈ demoGrid, r.cell_lat = (make_cell 0 0).1 ∧
      r.cell_lon = (make_cell 0 0).2 := by
    refine ⟨⟨0, 0, 2, 5, 1⟩, by simp [demoGrid], ?_⟩
    rw [make_cell_zero_zero]
    exact ⟨rfl, rfl⟩
  exact ⟨h, claim_C8_identical_route (fun f => f.sum) demoGrid 0 0 h⟩

/-- Claim C9: serving a point or route request leaves the loaded model and
feature table unchanged — the handlers read the shared state but never
reassign it. -/
theorem claim_C9_handlers_preserve_state (st : ServerState) (preq : PointReq)
    (coords : CoordsVal) :
    (safety_score_point_app st preq).2 = st ∧
    (score_route_app st coords).2 = st :=
  ⟨rfl, rfl⟩

/-- Claim C10: the model/table availability check precedes input
validation — with either global unloaded, every request gets the
500-equivalent not-loaded error, whatever its payload. -/
theorem claim_C10_availability_first :
    (∀ (g : Option Grid) (c : CoordsVal),
      score_route none g c =
        .err 500 "Safety model not loaded. Check backend logs.") ∧
    (∀ (m : Model) (c : CoordsVal),
      score_route (some m) none c =
        .err 500 "Grid features not loaded. Run generate_grid_features.py first.") ∧
    (∀ (model : Option Model) (grid : Option Grid) (req : PointReq),
      model = none ∨ grid = none →
      safety_score_point model grid req = .err 500 "Safety model not loaded") := by
  refine ⟨fun g c => rfl, fun m c => rfl, ?_⟩
  intro model grid req h
  cases model with
  | none => cases grid <;> rfl
  | some m =>
    cases grid with
    | none => rfl
    | some g => rcases h with h | h <;> simp at h

/-- Witness for C10: unloaded model with a missing-coords route request,
unloaded table, and unloaded model with a missing-fields point request. -/
theorem claim_C10_witness :
    score_route none (some demoGrid) .missing =
      .err 500 "Safety model not loaded. Check backend logs." ∧
    score_route (some fun f => f.sum) none .missing =
      .err 500 "Grid features not loaded. Run generate_grid_features.py first." ∧
    safety_score_point none (some demoGrid) ⟨none, none⟩ =
      .err 500 "Safety model not loaded" :=
  ⟨claim_C10_availability_first.1 (some demoGrid) .missing,
   claim_C10_availability_first.2.1 (fun f => f.sum) .missing,
   claim_C10_availability_first.2.2 none (some demoGrid) ⟨none, none⟩
     (Or.inl rfl)⟩

end SafeWalk
